import Mathlib

/-!
# FeelsClaudeMan emotion engine — shallow embedding

This file embeds the emotion detection and transition engine of the
FeelsClaudeMan repository in Lean 4 and proves properties of it:

* `src/mcp-server/src/emotion/transitions.ts` — `TransitionDetector`
  (bounded emotion history, viral-sequence matching, session statistics);
* `src/mcp-server/src/emotion/pattern.ts` — `PatternMatcher`
  (rule catalog, count-based confidence, intensity adjustment);
* `src/mcp-server/src/emotion/claude.ts` — `ClaudeDetector`
  (external-service result normalization: defaulting, clamping,
  display-mode validation);
* `src/mcp-server/src/emotion/detector.ts` — `EmotionDetector`
  (mode orchestration: pattern / claude / hybrid, viral-moment tracking).

Modelling conventions:

* JavaScript numbers are modelled as `Nat`/`Int` where the source only
  ever produces integers, and as `ℚ` where fractional values occur
  (confidences, ratios, intensities coming from parsed JSON).
* Regular-expression tests are modelled by an abstract oracle
  `test : String → String → Bool` applied to a pattern's source text and
  the analyzed blob; the regex engine itself is external to the engine's
  logic, which only consumes the boolean outcome of each test.
* The network call of `ClaudeDetector.detect` is modelled by an
  `Option ParsedJson` argument: `none` stands for every failure path of
  the source (`fetch` throwing, a non-ok response, missing content, no
  JSON object found, `JSON.parse` throwing), all of which return `null`;
  `some p` stands for a successfully parsed JSON object.
* Wall-clock timestamps (`new Date().toISOString()`, `Date.now()`) are
  passed in as parameters or fixed to `0`; no claim depends on them.
* Mutation of `this` is modelled by explicit state passing: a method
  that mutates returns the new state next to its result.
-/

/-! ## transitions.ts — data model -/

/-- One element of `TransitionDetector.recentEmotions`:
`{ emotion, thoughtId, timestamp }` (transitions.ts line 107). -/
structure HistEntry where
  emotion : String
  thoughtId : Int
  timestamp : String
deriving DecidableEq, Repr, Inhabited

/-- Embeds `ViralSequence` (transitions.ts lines 7–12). -/
structure ViralSequence where
  name : String
  pattern : List String
  viralityScore : Nat
  description : String
deriving DecidableEq, Repr

/-- Embeds `DetectedViralMoment` (transitions.ts lines 14–18). -/
structure DetectedViralMoment where
  sequence : ViralSequence
  thoughtIds : List Int
  timestamp : String
deriving DecidableEq, Repr

/-- Embeds `VIRAL_SEQUENCES` (transitions.ts lines 20–88), in source order. -/
def VIRAL_SEQUENCES : List ViralSequence :=
  [ ⟨"The Struggle Bus Arrives", ["frustrated", "frustrated", "eureka"], 10,
      "Struggled hard, then breakthrough!"⟩,
    ⟨"Against All Odds", ["this_is_fine", "this_is_fine", "nailed_it"], 10,
      "Everything was on fire, but we made it"⟩,
    ⟨"Hubris", ["big_brain", "facepalm"], 10,
      "Felt smart, immediately proven wrong"⟩,
    ⟨"The Comeback Kid", ["dumpster_fire", "nailed_it"], 9,
      "From disaster to victory"⟩,
    ⟨"YOLO Success", ["sweating", "nailed_it"], 9,
      "Risky move that paid off"⟩,
    ⟨"Triple Facepalm", ["facepalm", "facepalm", "facepalm"], 10,
      "Three mistakes in a row"⟩,
    ⟨"Emotional Rollercoaster", ["nailed_it", "facepalm", "nailed_it"], 8,
      "Up, down, up again"⟩,
    ⟨"The Long Night", ["confused_math", "confused_math", "confused_math", "eureka"], 9,
      "Long confusion finally resolved"⟩,
    ⟨"Speedrun Any%", ["here_we_go", "nailed_it"], 7,
      "Quick attempt, immediate success"⟩,
    ⟨"The Plot Thickens", ["eureka", "plot_twist", "confused_math"], 8,
      "Thought we understood, then twist!"⟩,
    ⟨"Chaos Goblin", ["this_is_fine", "this_is_fine", "this_is_fine"], 8,
      "Embracing the chaos"⟩,
    ⟨"Rising Phoenix", ["table_flip", "eureka", "chefs_kiss"], 10,
      "Rage, discovery, perfection"⟩ ]

/-- Embeds `EMOTION_CATEGORIES` (transitions.ts lines 90–99), as an association
list in source key order. -/
def EMOTION_CATEGORIES : List (String × List String) :=
  [ ("frustrated", ["frustrated", "facepalm", "table_flip", "internal_screaming"]),
    ("success", ["nailed_it", "big_brain", "chefs_kiss", "success"]),
    ("chaos", ["this_is_fine", "dumpster_fire"]),
    ("confused", ["confused_math", "loading"]),
    ("discovery", ["eureka", "plot_twist", "mind_blown"]),
    ("nervous", ["sweating", "here_we_go"]),
    ("rare", ["one_punch_solution", "butterfly_effect", "archaeologist",
              "stack_overflow_prophet"]) ]

/-- State of a `TransitionDetector` instance: the single
`recentEmotions` array (transitions.ts line 107). -/
structure TransitionState where
  recentEmotions : List HistEntry
deriving DecidableEq, Repr

/-- Embeds `maxHistory` (transitions.ts line 108). -/
def maxHistory : Nat := 20

namespace TransitionDetector

/-- Embeds `emotionMatches` (transitions.ts lines 189–203): exact label
equality first, then membership of the category named by `required`. -/
def emotionMatches (actual required : String) : Bool :=
  if actual = required then true
  else
    match List.lookup required EMOTION_CATEGORIES with
    | some cat => cat.contains actual
    | none => false

/-- Inner loop of `matchSequence` (transitions.ts lines 169–180):
walks `toCheck` and `pattern` in lockstep, collecting `startIdx + i` for
each position, failing as soon as one position does not match. -/
def matchSeqGo (startIdx : Nat) : Nat → List String → List String → Option (List Nat)
  | _, _, [] => some []
  | _, [], _ :: _ => none
  | i, act :: acts, req :: reqs =>
    if emotionMatches act req then
      (matchSeqGo startIdx (i + 1) acts reqs).map (fun rest => (startIdx + i) :: rest)
    else
      none

/-- Embeds `matchSequence` (transitions.ts lines 156–183): match a pattern
against the last `pattern.length` emotions, returning their indices. -/
def matchSequence (emotions pat : List String) : Option (List Nat) :=
  if emotions.length < pat.length then none
  else
    let startIdx := emotions.length - pat.length
    matchSeqGo startIdx 0 (emotions.drop startIdx) pat

/-- Loop body of `detectViralMoment` (transitions.ts lines 130–151):
first sequence in catalog order that matches wins; its entries are
removed by splicing the matched indices out in reverse order. -/
def detectViralLoop (hist : List HistEntry) (ts : String) :
    List ViralSequence → Option DetectedViralMoment × List HistEntry
  | [] => (none, hist)
  | seq :: rest =>
    match matchSequence (hist.map (·.emotion)) seq.pattern with
    | some indices =>
      let tids := indices.map (fun i => (hist.getD i default).thoughtId)
      (some ⟨seq, tids, ts⟩, indices.reverse.foldl (fun acc i => acc.eraseIdx i) hist)
    | none => detectViralLoop hist ts rest

/-- Embeds `detectViralMoment` (transitions.ts lines 130–151). -/
def detectViralMoment (st : TransitionState) (ts : String) :
    Option DetectedViralMoment × TransitionState :=
  let r := detectViralLoop st.recentEmotions ts VIRAL_SEQUENCES
  (r.1, ⟨r.2⟩)

/-- The first half of `addEmotion` (transitions.ts lines 115–120):
push the new entry, then `shift()` the oldest entry out if the history
exceeds `maxHistory`. -/
def pushEvict (st : TransitionState) (emotion : String) (thoughtId : Int)
    (ts : String) : List HistEntry :=
  let hist := st.recentEmotions ++ [⟨emotion, thoughtId, ts⟩]
  if hist.length > maxHistory then hist.drop 1 else hist

/-- Embeds `addEmotion` (transitions.ts lines 113–125): push the new entry,
drop the oldest if over capacity, then scan for viral sequences.
`ts` models `new Date().toISOString()`. -/
def addEmotion (st : TransitionState) (emotion : String) (thoughtId : Int)
    (ts : String) : Option DetectedViralMoment × TransitionState :=
  detectViralMoment ⟨pushEvict st emotion thoughtId ts⟩ ts

/-- Building of the `counts` record in `getStats` (transitions.ts
lines 208–212): a record keyed in first-occurrence order, modelled as
an association list updated in place. -/
def bumpCount : List (String × Nat) → String → List (String × Nat)
  | [], e => [(e, 1)]
  | (k, n) :: rest, e =>
    if k = e then (k, n + 1) :: rest else (k, n) :: bumpCount rest e

/-- Adjacent-change count of `getStats` (transitions.ts lines 215–220). -/
def countChanges : List HistEntry → Nat
  | a :: b :: rest => (if b.emotion ≠ a.emotion then 1 else 0) + countChanges (b :: rest)
  | _ => 0

/-- Result shape of `getStats` (transitions.ts lines 206–237). -/
structure SessionStats where
  emotionCounts : List (String × Nat)
  volatility : ℚ
  dominantEmotion : String
deriving DecidableEq, Repr

/-- Embeds `getStats` (transitions.ts lines 206–237). -/
def getStats (st : TransitionState) : SessionStats :=
  let counts := st.recentEmotions.foldl (fun acc en => bumpCount acc en.emotion) []
  let changes := countChanges st.recentEmotions
  let volatility : ℚ :=
    if st.recentEmotions.length > 1 then
      (changes : ℚ) / ((st.recentEmotions.length : ℚ) - 1)
    else 0
  let dom := counts.foldl
    (fun (best : String × Nat) kv => if kv.2 > best.2 then kv else best)
    ("neutral", 0)
  ⟨counts, volatility, dom.1⟩

/-- Embeds `clear` (transitions.ts lines 242–244). -/
def clear (_st : TransitionState) : TransitionState := ⟨[]⟩

/-- Count of a label in `getStats`'s `emotionCounts` record, with the
JavaScript record read `counts[label] ?? 0`. -/
def statCount (st : TransitionState) (lbl : String) : Nat :=
  (List.lookup lbl (getStats st).emotionCounts).getD 0

end TransitionDetector

/-- How the server routes a session-attributed emotion event to the
tracker: `FeelsClaudeManServer` (server.ts) holds one `EmotionDetector`
(hence one `TransitionDetector`) created in its constructor and used
for every hook event, whatever `session_id` the event carries; the
session id is never forwarded to the detector. -/
def serverRoutedAddEmotion (st : TransitionState) (_sessionId : String)
    (emotion : String) (thoughtId : Int) (ts : String) :
    Option DetectedViralMoment × TransitionState :=
  TransitionDetector.addEmotion st emotion thoughtId ts

/-! ## pattern.ts — data model and rule catalog -/

/-- Embeds `PatternDef` (pattern.ts lines 17–23); `patterns` holds the source
text of each regular expression (all are compiled with the `i` flag and
tested against the already lower-cased blob). -/
structure PatternDef where
  patterns : List String
  gifSearch : String
  baseIntensity : Nat
  isRare : Bool
  tags : List String
deriving DecidableEq, Repr

/-- Embeds `EMOTION_PATTERNS` (pattern.ts lines 25–252), an association list
in source key order (JavaScript object insertion order). -/
def EMOTION_PATTERNS : List (String × PatternDef) :=
  [ ("nailed_it",
     ⟨["tests?\\s+pass", "all\\s+tests?\\s+pass", "build\\s+succeed", "successfully",
       "0\\s+errors?", "no\\s+errors?", "completed?\\s+successfully", "works?\\s+perfectly"],
      "nailed it success", 7, false, ["success", "victory"]⟩),
    ("big_brain",
     ⟨["clever\\s+solution", "elegant", "optimiz", "refactor.*clean", "one.?liner",
       "simplified"],
      "big brain galaxy brain", 6, false, ["clever", "smart"]⟩),
    ("chefs_kiss",
     ⟨["perfect", "beautiful", "exactly\\s+right", "flawless"],
      "chefs kiss perfection", 7, false, ["perfect", "satisfaction"]⟩),
    ("this_is_fine",
     ⟨["error.*proceed", "warning.*ignor", "deprecated.*but", "workaround", "hacky",
       "technical\\s+debt"],
      "this is fine dog fire", 6, false, ["chaos", "denial"]⟩),
    ("dumpster_fire",
     ⟨["multiple.*errors?", "everything.*broken", "cascade.*fail", "critical.*error",
       "fatal"],
      "dumpster fire chaos", 8, false, ["chaos", "disaster"]⟩),
    ("confused_math",
     ⟨["confus", "unexpected", "strange", "weird", "doesn.?t\\s+make\\s+sense",
       "why\\s+is"],
      "confused math lady calculating", 5, false, ["confusion", "thinking"]⟩),
    ("loading",
     ⟨["processing", "loading", "fetching", "downloading", "installing", "compiling"],
      "loading buffering waiting", 3, false, ["waiting", "processing"]⟩),
    ("facepalm",
     ⟨["typo", "missing\\s+semicolon", "forgot\\s+to\\s+import", "simple\\s+mistake",
       "obvious.*error", "should\\s+have\\s+been", "duh"],
      "facepalm picard", 5, false, ["frustration", "mistake"]⟩),
    ("table_flip",
     ⟨["again!?$", "still.*not\\s+working", "keeps?\\s+failing", "same\\s+error",
       "nth\\s+time"],
      "table flip rage", 8, false, ["rage", "frustration"]⟩),
    ("internal_screaming",
     ⟨["silently", "internally", "deep\\s+breath", "patience", "calm"],
      "internal screaming", 6, false, ["stress", "hidden"]⟩),
    ("eureka",
     ⟨["found\\s+it", "that.?s\\s+it", "aha", "eureka", "figured\\s+out",
       "the\\s+problem\\s+was", "root\\s+cause"],
      "eureka lightbulb moment", 7, false, ["discovery", "breakthrough"]⟩),
    ("plot_twist",
     ⟨["actually", "turns?\\s+out", "plot\\s+twist", "didn.?t\\s+expect", "surprise"],
      "plot twist surprised", 6, false, ["surprise", "revelation"]⟩),
    ("mind_blown",
     ⟨["mind.*blown", "incredible", "amazing", "wow", "whoa"],
      "mind blown explosion", 7, false, ["amazement", "discovery"]⟩),
    ("sweating",
     ⟨["rm\\s+-rf", "drop\\s+table", "force\\s+push", "production", "deploy",
       "dangerous", "risky"],
      "sweating nervous", 7, false, ["nervous", "risky"]⟩),
    ("here_we_go",
     ⟨["let.?s\\s+try", "here\\s+goes", "fingers\\s+crossed", "hope\\s+this\\s+works",
       "moment\\s+of\\s+truth"],
      "here we go again", 5, false, ["anticipation", "hope"]⟩),
    ("sassy",
     ⟨["obviously", "clearly", "of\\s+course", "as\\s+expected"],
      "sassy attitude", 4, false, ["attitude", "confidence"]⟩),
    ("one_punch_solution",
     ⟨["single\\s+line", "one\\s+change", "fixed.*immediately"],
      "one punch man", 9, true, ["legendary", "instant-fix"]⟩),
    ("butterfly_effect",
     ⟨["tiny\\s+change.*fixed", "small.*big\\s+impact", "one\\s+character"],
      "butterfly effect chaos", 8, true, ["legendary", "butterfly"]⟩),
    ("archaeologist",
     ⟨["legacy\\s+code", "ancient", "years?\\s+old", "deprecated.*long"],
      "archaeologist discovery ancient", 6, true, ["legendary", "archaeology"]⟩),
    ("stack_overflow_prophet",
     ⟨["stack\\s*overflow", "found.*answer", "exact.*solution", "copy.*paste.*worked"],
      "prophet oracle wisdom", 7, true, ["legendary", "stackoverflow"]⟩) ]

/-- Embeds `EmotionMatch` (pattern.ts lines 8–15). The intensity is kept as a
`Nat` because every value the pattern path produces is an integer. -/
structure EmotionMatch where
  emotion : String
  gifSearch : String
  confidence : ℚ
  intensity : Nat
  isRare : Bool
  tags : List String
deriving DecidableEq, Repr

/-- Embeds `DEFAULT_EMOTION` (pattern.ts lines 255–262). -/
def DEFAULT_EMOTION : EmotionMatch :=
  ⟨"neutral", "coding working", 3/10, 4, false, ["neutral"]⟩

namespace PatternMatcher

/-- Embeds `String.toLowerCase()` on the ASCII inputs of this system. -/
def jsToLower (s : String) : String := s.map Char.toLower

/-- The `textToAnalyze` blob (pattern.ts lines 273–277):
`[toolResult || '', thinkingBlock || '', toolName || ''].join(' ').toLowerCase()`. -/
def mkBlob (toolResult thinkingBlock toolName : Option String) : String :=
  jsToLower ((toolResult.getD "") ++ " " ++ (thinkingBlock.getD "") ++ " " ++
    (toolName.getD ""))

/-- A rule's `matchCount` (pattern.ts lines 287–293): how many of its
patterns test true on the blob, under the regex oracle `test`. -/
def scoreRule (test : String → String → Bool) (blob : String) (d : PatternDef) : Nat :=
  d.patterns.countP (fun p => test p blob)

/-- Embeds `Math.min(0.5 + matchCount * 0.15, 0.95)` of pattern.ts line 296. -/
def ruleConfidence (k : Nat) : ℚ := min (1/2 + 3/20 * (k : ℚ)) (19/20)

/-- Embeds `(textToAnalyze.match(/!/g) || []).length` (pattern.ts line 312). -/
def countExcl (blob : String) : Nat := blob.toList.countP (fun c => c = '!')

/-- Embeds `(textToAnalyze.match(/[A-Z]/g) || []).length` (pattern.ts line 318). -/
def countUpper (blob : String) : Nat :=
  blob.toList.countP (fun c => decide ('A' ≤ c ∧ c ≤ 'Z'))

/-- Embeds the test `capsRatio > 0.3` (pattern.ts lines 318–321). -/
def capsBoost (blob : String) : Bool :=
  decide ((countUpper blob : ℚ) / (blob.length : ℚ) > 3/10)

/-- The intensity adjustment of pattern.ts lines 304–321: start from the
rule's base intensity; `+1` capped at 10 if the success flag is exactly
`false`; `+ floor(exclamations / 2)` capped at 10 when there is at least
one exclamation mark; `+1` capped at 10 if the uppercase ratio of the
(lower-cased) blob exceeds 0.3. -/
def adjustIntensity (base : Nat) (toolSuccess : Option Bool) (blob : String) : Nat :=
  let i1 := if toolSuccess = some false then min (base + 1) 10 else base
  let exc := countExcl blob
  let i2 := if exc > 0 then min (i1 + exc / 2) 10 else i1
  if capsBoost blob then min (i2 + 1) 10 else i2

/-- One iteration of the rule loop (pattern.ts lines 286–337), carried
over the state `(bestMatch, highestConfidence)`. -/
def detectStep (test : String → String → Bool) (blob : String)
    (toolSuccess : Option Bool) (st : Option EmotionMatch × ℚ)
    (nd : String × PatternDef) : Option EmotionMatch × ℚ :=
  let k := scoreRule test blob nd.2
  if k > 0 then
    let conf := ruleConfidence k
    if conf > st.2 then
      (some { emotion := nd.1, gifSearch := nd.2.gifSearch, confidence := conf,
              intensity := adjustIntensity nd.2.baseIntensity toolSuccess blob,
              isRare := nd.2.isRare, tags := nd.2.tags }, conf)
    else st
  else st

/-- Embeds `PatternMatcher.detect` (pattern.ts lines 268–382). -/
def detect (test : String → String → Bool)
    (toolResult thinkingBlock toolName : Option String)
    (toolSuccess : Option Bool) : EmotionMatch :=
  let blob := mkBlob toolResult thinkingBlock toolName
  if blob.trim = "" then DEFAULT_EMOTION
  else
    match (EMOTION_PATTERNS.foldl (detectStep test blob toolSuccess) (none, 0)).1 with
    | some m => m
    | none =>
      match toolSuccess with
      | some true => ⟨"success", "thumbs up success", 3/5, 5, false, ["success"]⟩
      | some false => ⟨"error", "error oops mistake", 3/5, 5, false, ["error"]⟩
      | none => DEFAULT_EMOTION

/-- One iteration of the rule loop, tracking only which catalog entry
currently holds the highest confidence (the "winning rule"). -/
def winnerStep (test : String → String → Bool) (blob : String)
    (st : Option (String × PatternDef) × ℚ) (nd : String × PatternDef) :
    Option (String × PatternDef) × ℚ :=
  let k := scoreRule test blob nd.2
  if k > 0 then
    let conf := ruleConfidence k
    if conf > st.2 then (some nd, conf) else st
  else st

/-- The winning rule of `detect`'s loop: the catalog entry whose match
(pattern.ts lines 286–337) produced the final `bestMatch`, or `none`
when the blob is whitespace-only or no rule matched. -/
def winningRule (test : String → String → Bool)
    (toolResult thinkingBlock toolName : Option String) :
    Option (String × PatternDef) :=
  let blob := mkBlob toolResult thinkingBlock toolName
  if blob.trim = "" then none
  else (EMOTION_PATTERNS.foldl (winnerStep test blob) (none, 0)).1

/-- The `EmotionMatch` that the loop builds for a given winning catalog
entry. -/
def mkMatch (test : String → String → Bool) (blob : String)
    (toolSuccess : Option Bool) (nd : String × PatternDef) : EmotionMatch :=
  { emotion := nd.1, gifSearch := nd.2.gifSearch,
    confidence := ruleConfidence (scoreRule test blob nd.2),
    intensity := adjustIntensity nd.2.baseIntensity toolSuccess blob,
    isRare := nd.2.isRare, tags := nd.2.tags }

end PatternMatcher

/-! ## claude.ts — external-service result normalization -/

/-- Embeds `ClaudeEmotionResult` (claude.ts lines 11–18). The display mode is
kept as a `String` and constrained by `validateDisplayMode`. -/
structure ClaudeEmotionResult where
  gifSearch : String
  intensity : ℚ
  vibeCheck : String
  displayMode : String
  caption : Option String
  isCreative : Bool
deriving DecidableEq, Repr

/-- The JSON object extracted from the service response (claude.ts
line 139, `JSON.parse(jsonMatch[0])`); absent fields are `none`. -/
structure ParsedJson where
  gif_search : Option String
  intensity : Option ℚ
  vibe_check : Option String
  display_mode : Option String
  caption : Option String
deriving DecidableEq, Repr

/-- JavaScript `x || d` for string fields: the empty string is falsy. -/
def jsOrStr (x : Option String) (d : String) : String :=
  match x with
  | some s => if s = "" then d else s
  | none => d

/-- JavaScript `x || d` for numeric fields: `0` is falsy. -/
def jsOrNum (x : Option ℚ) (d : ℚ) : ℚ :=
  match x with
  | some q => if q = 0 then d else q
  | none => d

namespace ClaudeDetector

/-- Embeds `validateDisplayMode` (claude.ts lines 160–163): unrecognized or
absent values normalize to `"normal"`. -/
def validateDisplayMode (mode : Option String) : String :=
  match mode with
  | some m =>
    if m ∈ ["normal", "fullscreen", "split", "sequence", "chaos"] then m else "normal"
  | none => "normal"

/-- Embeds `ClaudeDetector.detect` (claude.ts lines 84–157). `apiKey = none`
models a missing `ANTHROPIC_API_KEY`; `net = none` models every failure
path (thrown fetch, non-ok status, missing content, no JSON object in
the text, parse error), each of which returns `null` in the source. -/
def detect (apiKey : Option String) (net : Option ParsedJson) :
    Option ClaudeEmotionResult :=
  match apiKey with
  | none => none
  | some _ =>
    match net with
    | none => none
    | some p =>
      some { gifSearch := jsOrStr p.gif_search "confused reaction",
             intensity := min 10 (max 1 (jsOrNum p.intensity 5)),
             vibeCheck := jsOrStr p.vibe_check "",
             displayMode := validateDisplayMode p.display_mode,
             caption := p.caption,
             isCreative := true }

/-- Embeds `isAvailable` (claude.ts lines 75–77): `!!this.apiKey`. -/
def isAvailable (apiKey : Option String) : Bool := apiKey.isSome

end ClaudeDetector

/-! ## detector.ts — orchestration -/

/-- Embeds `DetectionMode` (detector.ts line 14). -/
inductive DetectionMode where
  | pattern : DetectionMode
  | claude : DetectionMode
  | hybrid : DetectionMode
deriving DecidableEq, Repr

/-- Embeds `DetectionResult` (detector.ts lines 16–29). `detectionTimeMs` is
wall-clock timing and is modelled as `0`. -/
structure DetectionResult where
  emotion : String
  gifSearch : String
  intensity : ℚ
  confidence : ℚ
  displayMode : String
  vibeCheck : Option String
  caption : Option String
  isRare : Bool
  isCreative : Bool
  tags : List String
  viralMoment : Option DetectedViralMoment
  detectionMode : DetectionMode
  detectionTimeMs : ℚ
deriving DecidableEq, Repr

namespace EmotionDetector

/-- Embeds `confidenceThreshold` (detector.ts line 36). -/
def confidenceThreshold : ℚ := 7/10

/-- Embeds `detectPattern` (detector.ts lines 102–122). -/
def detectPattern (test : String → String → Bool)
    (toolResult thinkingBlock toolName : Option String)
    (toolSuccess : Option Bool) : DetectionResult :=
  let m := PatternMatcher.detect test toolResult thinkingBlock toolName toolSuccess
  { emotion := m.emotion, gifSearch := m.gifSearch, intensity := (m.intensity : ℚ),
    confidence := m.confidence,
    displayMode := if m.intensity ≥ 9 then "fullscreen" else "normal",
    vibeCheck := none, caption := none,
    isRare := m.isRare, isCreative := false, tags := m.tags,
    viralMoment := none, detectionMode := .pattern, detectionTimeMs := 0 }

/-- Embeds `detectClaude` (detector.ts lines 127–157): wrap a successful
creative result, or fall back to the pattern result. `_toolInput` only
feeds the service prompt in the source. -/
def detectClaude (test : String → String → Bool) (apiKey : Option String)
    (net : Option ParsedJson) (toolName _toolInput toolResult : Option String)
    (toolSuccess : Option Bool) (thinkingBlock : Option String) : DetectionResult :=
  match ClaudeDetector.detect apiKey net with
  | some c =>
    { emotion := "creative", gifSearch := c.gifSearch, intensity := c.intensity,
      confidence := 9/10, displayMode := c.displayMode,
      vibeCheck := some c.vibeCheck, caption := c.caption,
      isRare := false, isCreative := true, tags := ["creative", "claude-generated"],
      viralMoment := none, detectionMode := .claude, detectionTimeMs := 0 }
  | none => detectPattern test toolResult thinkingBlock toolName toolSuccess

/-- Embeds `detectHybrid` (detector.ts lines 162–203): pattern first; below
the confidence threshold, escalate to the creative service when it is
available, merging on success and falling back otherwise. -/
def detectHybrid (test : String → String → Bool) (apiKey : Option String)
    (net : Option ParsedJson) (toolName _toolInput toolResult : Option String)
    (toolSuccess : Option Bool) (thinkingBlock : Option String) : DetectionResult :=
  let p := detectPattern test toolResult thinkingBlock toolName toolSuccess
  if p.confidence ≥ confidenceThreshold then p
  else if ClaudeDetector.isAvailable apiKey then
    match ClaudeDetector.detect apiKey net with
    | some c =>
      { emotion := p.emotion, gifSearch := c.gifSearch, intensity := c.intensity,
        confidence := 17/20, displayMode := c.displayMode,
        vibeCheck := some c.vibeCheck, caption := c.caption,
        isRare := p.isRare, isCreative := true, tags := p.tags ++ ["claude-enhanced"],
        viralMoment := none, detectionMode := .hybrid, detectionTimeMs := 0 }
    | none => p
  else p

/-- The `switch (this.mode)` of `detect` (detector.ts lines 63–77). -/
def runMode (mode : DetectionMode) (test : String → String → Bool)
    (apiKey : Option String) (net : Option ParsedJson)
    (toolName toolInput toolResult : Option String) (toolSuccess : Option Bool)
    (thinkingBlock : Option String) : DetectionResult :=
  match mode with
  | .pattern => detectPattern test toolResult thinkingBlock toolName toolSuccess
  | .claude =>
    detectClaude test apiKey net toolName toolInput toolResult toolSuccess thinkingBlock
  | .hybrid =>
    detectHybrid test apiKey net toolName toolInput toolResult toolSuccess thinkingBlock

/-- JavaScript truthiness of the optional numeric `thoughtId`
(detector.ts line 84, `if (thoughtId)`): `undefined` and `0` are falsy. -/
def thoughtIdTruthy (thoughtId : Option Int) : Bool :=
  match thoughtId with
  | some n => decide (n ≠ 0)
  | none => false

/-- Embeds `EmotionDetector.detect` (detector.ts lines 54–97): classify by
mode, then — only for a truthy `thoughtId` — feed `(emotion, thoughtId)`
to the transition detector and attach any viral moment. The pair is the
returned result and the updated `TransitionDetector` state. -/
def detect (mode : DetectionMode) (test : String → String → Bool)
    (apiKey : Option String) (net : Option ParsedJson)
    (toolName toolInput toolResult : Option String) (toolSuccess : Option Bool)
    (thinkingBlock : Option String) (thoughtId : Option Int)
    (st : TransitionState) (ts : String) : DetectionResult × TransitionState :=
  let result := runMode mode test apiKey net toolName toolInput toolResult
    toolSuccess thinkingBlock
  if thoughtIdTruthy thoughtId then
    let r := TransitionDetector.addEmotion st result.emotion (thoughtId.getD 0) ts
    ({ result with viralMoment := r.1 }, r.2)
  else
    (result, st)

end EmotionDetector

/-! ## Theorems -/

/-- C10: in rule (pattern) mode, the display directive is
`"fullscreen"` exactly when the adjusted intensity is at least 9 and
`"normal"` otherwise; rule mode never produces `"split"`,
`"sequence"` or `"chaos"` (detector.ts line 113). -/
theorem C10_rule_mode_display (test : String → String → Bool)
    (tr th tn : Option String) (s : Option Bool) :
    ((EmotionDetector.detectPattern test tr th tn s).displayMode =
      if (EmotionDetector.detectPattern test tr th tn s).intensity ≥ 9
      then "fullscreen" else "normal") ∧
    ((EmotionDetector.detectPattern test tr th tn s).displayMode = "fullscreen" ∨
     (EmotionDetector.detectPattern test tr th tn s).displayMode = "normal") := by
  unfold EmotionDetector.detectPattern
  dsimp only
  constructor
  · by_cases h : (PatternMatcher.detect test tr th tn s).intensity ≥ 9
    · rw [if_pos h, if_pos (by exact_mod_cast h)]
    · rw [if_neg h, if_neg (by exact_mod_cast h)]
  · by_cases h : (PatternMatcher.detect test tr th tn s).intensity ≥ 9
    · left; rw [if_pos h]
    · right; rw [if_neg h]

/-- C8: in creative mode, a successful creative result is wrapped with
label `"creative"` and confidence fixed at 0.9; when the service is
unavailable (`apiKey = none`) or its call fails (`net = none`, covering
timeout, network failure and malformed responses), `detectClaude`
returns the rule-based result and no error reaches the caller
(detector.ts lines 127–157; claude.ts lines 84–157). -/
theorem C8_creative_mode_wrap_and_fallback (test : String → String → Bool)
    (k : String) (p : ParsedJson) (net : Option ParsedJson)
    (tn ti tr : Option String) (s : Option Bool) (th : Option String) :
    (EmotionDetector.detectClaude test (some k) (some p) tn ti tr s th).emotion =
      "creative" ∧
    (EmotionDetector.detectClaude test (some k) (some p) tn ti tr s th).confidence =
      9/10 ∧
    EmotionDetector.detectClaude test (some k) none tn ti tr s th =
      EmotionDetector.detectPattern test tr th tn s ∧
    EmotionDetector.detectClaude test none net tn ti tr s th =
      EmotionDetector.detectPattern test tr th tn s :=
  ⟨rfl, rfl, rfl, rfl⟩

/-- C3: in hybrid mode, when the rule matcher's confidence reaches the
0.7 threshold, the rule result is returned directly; the result is the
same for every availability and every outcome of the creative service,
which expresses that the service is never consulted on this path
(detector.ts lines 170–174). -/
theorem C3_hybrid_short_circuit (test : String → String → Bool)
    (apiKey : Option String) (net : Option ParsedJson)
    (tn ti tr : Option String) (s : Option Bool) (th : Option String)
    (h : (EmotionDetector.detectPattern test tr th tn s).confidence ≥ 7/10) :
    EmotionDetector.detectHybrid test apiKey net tn ti tr s th =
      EmotionDetector.detectPattern test tr th tn s := by
  simp only [EmotionDetector.detectHybrid, EmotionDetector.confidenceThreshold]
  rw [if_pos h]

/-- Witness for C3 at the spec's own example: a blob hitting two
`nailed_it` patterns, giving rule confidence 0.8 ≥ 0.7. -/
theorem C3_hybrid_short_circuit_witness :
    (EmotionDetector.detectPattern
        (fun p _ => p == "tests?\\s+pass" || p == "0\\s+errors?")
        (some "tests pass 0 errors") none none none).confidence ≥ 7/10 ∧
    EmotionDetector.detectHybrid
        (fun p _ => p == "tests?\\s+pass" || p == "0\\s+errors?")
        (some "key") (some ⟨some "g", some 7, some "v", some "normal", none⟩)
        none none (some "tests pass 0 errors") none none =
      EmotionDetector.detectPattern
        (fun p _ => p == "tests?\\s+pass" || p == "0\\s+errors?")
        (some "tests pass 0 errors") none none none :=
  ⟨by with_unfolding_all decide,
   C3_hybrid_short_circuit _ _ _ _ _ _ _ _ (by with_unfolding_all decide)⟩

/-- C4: in hybrid mode, below the 0.7 threshold and with a successful
creative result, the merged result keeps the rule label, takes the
creative cue, intensity, display directive, vibe note and caption,
fixes confidence at 0.85 and appends `"claude-enhanced"` to the rule
tags (the creative output itself carries no tag field, so the result
contains the union of both sources' tags); when the service is
unavailable or fails, the low-confidence rule result is returned
unchanged (detector.ts lines 177–203). -/
theorem C4_hybrid_merge (test : String → String → Bool) (apiKey : Option String)
    (net : Option ParsedJson) (tn ti tr : Option String) (s : Option Bool)
    (th : Option String) (c : ClaudeEmotionResult)
    (h : (EmotionDetector.detectPattern test tr th tn s).confidence < 7/10)
    (hc : ClaudeDetector.detect apiKey net = some c) :
    EmotionDetector.detectHybrid test apiKey net tn ti tr s th =
      { emotion := (EmotionDetector.detectPattern test tr th tn s).emotion,
        gifSearch := c.gifSearch, intensity := c.intensity, confidence := 17/20,
        displayMode := c.displayMode, vibeCheck := some c.vibeCheck,
        caption := c.caption,
        isRare := (EmotionDetector.detectPattern test tr th tn s).isRare,
        isCreative := true,
        tags := (EmotionDetector.detectPattern test tr th tn s).tags ++
          ["claude-enhanced"],
        viralMoment := none, detectionMode := .hybrid, detectionTimeMs := 0 } ∧
    (EmotionDetector.detectPattern test tr th tn s).tags ⊆
      (EmotionDetector.detectHybrid test apiKey net tn ti tr s th).tags ∧
    (∀ net', EmotionDetector.detectHybrid test none net' tn ti tr s th =
      EmotionDetector.detectPattern test tr th tn s) ∧
    EmotionDetector.detectHybrid test apiKey none tn ti tr s th =
      EmotionDetector.detectPattern test tr th tn s := by
  have hne : ¬ ((EmotionDetector.detectPattern test tr th tn s).confidence ≥
      EmotionDetector.confidenceThreshold) := not_le.mpr h
  cases apiKey with
  | none => exact absurd hc (by simp [ClaudeDetector.detect])
  | some k =>
    have hmain : EmotionDetector.detectHybrid test (some k) net tn ti tr s th =
        { emotion := (EmotionDetector.detectPattern test tr th tn s).emotion,
          gifSearch := c.gifSearch, intensity := c.intensity, confidence := 17/20,
          displayMode := c.displayMode, vibeCheck := some c.vibeCheck,
          caption := c.caption,
          isRare := (EmotionDetector.detectPattern test tr th tn s).isRare,
          isCreative := true,
          tags := (EmotionDetector.detectPattern test tr th tn s).tags ++
            ["claude-enhanced"],
          viralMoment := none, detectionMode := .hybrid, detectionTimeMs := 0 } := by
      simp only [EmotionDetector.detectHybrid]
      rw [if_neg hne, if_pos (show ClaudeDetector.isAvailable (some k) = true from rfl),
        hc]
    refine ⟨hmain, ?_, ?_, ?_⟩
    · rw [hmain]
      exact List.subset_append_left _ _
    · intro net'
      simp only [EmotionDetector.detectHybrid]
      rw [if_neg hne]
      rfl
    · simp only [EmotionDetector.detectHybrid]
      rw [if_neg hne]
      rfl

/-- Witness for C4: a blob matching no rule with an explicit success
flag gives rule confidence 0.6 < 0.7; the service responds with a
parsed JSON object. -/
theorem C4_hybrid_merge_witness :
    EmotionDetector.detectHybrid (fun _ _ => false) (some "key")
        (some ⟨some "squidward staring", some 7, some "vibes", some "chaos", none⟩)
        none none (some "garbage") (some true) none =
      { emotion := (EmotionDetector.detectPattern (fun _ _ => false)
          (some "garbage") none none (some true)).emotion,
        gifSearch := "squidward staring", intensity := 7, confidence := 17/20,
        displayMode := "chaos", vibeCheck := some "vibes", caption := none,
        isRare := (EmotionDetector.detectPattern (fun _ _ => false)
          (some "garbage") none none (some true)).isRare,
        isCreative := true,
        tags := (EmotionDetector.detectPattern (fun _ _ => false)
          (some "garbage") none none (some true)).tags ++ ["claude-enhanced"],
        viralMoment := none, detectionMode := .hybrid, detectionTimeMs := 0 } :=
  (C4_hybrid_merge (fun _ _ => false) (some "key")
    (some ⟨some "squidward staring", some 7, some "vibes", some "chaos", none⟩)
    none none (some "garbage") (some true) none
    ⟨"squidward staring", 7, "vibes", "chaos", none, true⟩
    (by with_unfolding_all decide) (by with_unfolding_all decide)).1

/-- C7, counterexample to the claim as stated: the orchestrator only
forwards to the transition tracker when the thought id is truthy
(detector.ts line 84, `if (thoughtId)`). An event classified with
thought id 0 leaves the tracker state unchanged, while the forwarding
the claim describes would have appended one entry. -/
theorem C7_counterexample :
    (EmotionDetector.detect .pattern (fun _ _ => false) none none none none none
        none none (some 0) ⟨[]⟩ "t").2 = ⟨[]⟩ ∧
    (TransitionDetector.addEmotion ⟨[]⟩
        ((EmotionDetector.detect .pattern (fun _ _ => false) none none none none none
          none none (some 0) ⟨[]⟩ "t").1).emotion 0 "t").2 ≠ ⟨[]⟩ := by
  with_unfolding_all decide

/-- C7 as amended: for every classified event whose thought id is
present and nonzero, `detect` forwards the result's label together with
that id to the transition tracker and attaches any resulting sequence
match to the result before returning it (detector.ts lines 83–90). -/
theorem C7_track_after_classify (mode : DetectionMode)
    (test : String → String → Bool) (apiKey : Option String)
    (net : Option ParsedJson) (tn ti tr : Option String) (s : Option Bool)
    (th : Option String) (n : Int) (st : TransitionState) (ts : String)
    (h : n ≠ 0) :
    EmotionDetector.detect mode test apiKey net tn ti tr s th (some n) st ts =
      ({ EmotionDetector.runMode mode test apiKey net tn ti tr s th with
          viralMoment := (TransitionDetector.addEmotion st
            (EmotionDetector.runMode mode test apiKey net tn ti tr s th).emotion
            n ts).1 },
       (TransitionDetector.addEmotion st
         (EmotionDetector.runMode mode test apiKey net tn ti tr s th).emotion
         n ts).2) := by
  simp only [EmotionDetector.detect, EmotionDetector.thoughtIdTruthy]
  rw [if_pos (by simp [h]), Option.getD_some]

/-- Witness for C7 at a concrete nonzero thought id. -/
theorem C7_track_after_classify_witness :
    EmotionDetector.detect .pattern (fun _ _ => false) none none none none none
        none none (some 3) ⟨[]⟩ "t" =
      ({ EmotionDetector.runMode .pattern (fun _ _ => false) none none none none
          none none none with
          viralMoment := (TransitionDetector.addEmotion ⟨[]⟩
            (EmotionDetector.runMode .pattern (fun _ _ => false) none none none
              none none none none).emotion 3 "t").1 },
       (TransitionDetector.addEmotion ⟨[]⟩
         (EmotionDetector.runMode .pattern (fun _ _ => false) none none none
           none none none none).emotion 3 "t").2) :=
  C7_track_after_classify .pattern (fun _ _ => false) none none none none none
    none none 3 ⟨[]⟩ "t" (by decide)

/-- C5, counterexample to the claim as stated: the tracker keeps one
shared history — `addEmotion` takes no session id (transitions.ts
line 113) and server.ts holds a single `EmotionDetector` instance for
every hook event. The same "session B" event produces no match on a
fresh tracker but completes `['frustrated', 'frustrated', 'eureka']`
after two events attributed to "session A", so a call made for one
session changes another session's matching behaviour. -/
theorem C5_counterexample :
    (serverRoutedAddEmotion ⟨[]⟩ "session-B" "eureka" 3 "t").1 = none ∧
    (serverRoutedAddEmotion
      ((serverRoutedAddEmotion
        ((serverRoutedAddEmotion ⟨[]⟩ "session-A" "frustrated" 1 "t").2)
        "session-A" "frustrated" 2 "t").2)
      "session-B" "eureka" 3 "t").1 ≠ none := by
  with_unfolding_all decide

/-- C5 as amended: the transition tracker maintains a single history
shared across all sessions — processing a session-attributed event is
independent of the session id and identical to calling the unkeyed
`addEmotion` of the one shared `TransitionDetector` instance. -/
theorem C5_shared_history (st : TransitionState) (sid sid' e : String)
    (tid : Int) (ts : String) :
    serverRoutedAddEmotion st sid e tid ts =
      serverRoutedAddEmotion st sid' e tid ts ∧
    serverRoutedAddEmotion st sid e tid ts =
      TransitionDetector.addEmotion st e tid ts :=
  ⟨rfl, rfl⟩

/-- Erasing an index never lengthens a list. -/
theorem length_eraseIdx_le {α : Type} : ∀ (l : List α) (i : Nat),
    (l.eraseIdx i).length ≤ l.length := by
  intro l
  induction l with
  | nil => intro i; simp [List.eraseIdx]
  | cons a as ih =>
    intro i
    cases i with
    | zero => simp only [List.eraseIdx]; exact Nat.le_succ as.length
    | succ j => simpa [List.eraseIdx] using ih j

/-- Splicing out a list of indices never lengthens a list. -/
theorem foldl_eraseIdx_length_le {α : Type} : ∀ (idxs : List Nat) (l : List α),
    (idxs.foldl (fun acc i => acc.eraseIdx i) l).length ≤ l.length := by
  intro idxs
  induction idxs with
  | nil => intro l; simp
  | cons i rest ih =>
    intro l
    exact le_trans (ih (l.eraseIdx i)) (length_eraseIdx_le l i)

/-- The viral-moment scan never lengthens the history. -/
theorem detectViralLoop_length_le (hist : List HistEntry) (ts : String) :
    ∀ cat : List ViralSequence,
    ((TransitionDetector.detectViralLoop hist ts cat).2).length ≤ hist.length := by
  intro cat
  induction cat with
  | nil => simp [TransitionDetector.detectViralLoop]
  | cons sq rest ih =>
    simp only [TransitionDetector.detectViralLoop]
    cases hm : TransitionDetector.matchSequence (hist.map (·.emotion)) sq.pattern with
    | none => simp only [hm]; exact ih
    | some idxs =>
      simpa [hm] using foldl_eraseIdx_length_le idxs.reverse hist

/-- Push-then-evict keeps the history within `maxHistory`. -/
theorem pushEvict_length_le (st : TransitionState) (e : String) (tid : Int)
    (ts : String) (h : st.recentEmotions.length ≤ maxHistory) :
    (TransitionDetector.pushEvict st e tid ts).length ≤ maxHistory := by
  unfold TransitionDetector.pushEvict
  dsimp only
  split
  · simp only [List.length_drop, List.length_append, List.length_cons,
      List.length_nil]
    omega
  · rename_i hlen
    simp only [List.length_append, List.length_cons, List.length_nil] at hlen ⊢
    omega

set_option maxRecDepth 100000 in
/-- C9: the history never exceeds 20 entries (`addEmotion` preserves the
capacity bound, transitions.ts lines 118–120), and eviction is strict
FIFO: feeding 25 labels that match no sequence into an empty tracker
leaves exactly the most recent 20 entries in arrival order, the oldest
5 gone. -/
theorem C9_history_bound_and_fifo :
    (∀ (st : TransitionState) (e : String) (tid : Int) (ts : String),
      st.recentEmotions.length ≤ 20 →
      ((TransitionDetector.addEmotion st e tid ts).2).recentEmotions.length ≤ 20) ∧
    ((List.range 25).foldl (fun st i =>
        (TransitionDetector.addEmotion st ("lab" ++ toString i) (i : Int) "t").2)
      ⟨[]⟩ =
      ⟨((List.range 25).drop 5).map
        (fun i => ⟨"lab" ++ toString i, (i : Int), "t"⟩)⟩) := by
  constructor
  · intro st e tid ts h
    have h1 : (TransitionDetector.pushEvict st e tid ts).length ≤ maxHistory :=
      pushEvict_length_le st e tid ts h
    have h2 := detectViralLoop_length_le (TransitionDetector.pushEvict st e tid ts)
      ts VIRAL_SEQUENCES
    simpa [TransitionDetector.addEmotion, TransitionDetector.detectViralMoment,
      maxHistory] using le_trans h2 h1
  · with_unfolding_all decide

/-- Witness for C9's capacity-preservation hypothesis at a concrete
state. -/
theorem C9_history_bound_witness :
    ((TransitionDetector.addEmotion ⟨[]⟩ "neutral" 1 "t").2).recentEmotions.length
      ≤ 20 :=
  C9_history_bound_and_fifo.1 ⟨[]⟩ "neutral" 1 "t" (by decide)

/-- Structure of a successful `matchSeqGo`: the collected indices are
the consecutive positions `startIdx + i, startIdx + i + 1, …`, one per
pattern element, and the pattern fits in the remaining emotions. -/
theorem matchSeqGo_eq (startIdx : Nat) :
    ∀ (reqs acts : List String) (i : Nat) (idxs : List Nat),
    TransitionDetector.matchSeqGo startIdx i acts reqs = some idxs →
    idxs = (List.range reqs.length).map (fun j => startIdx + (i + j)) ∧
    reqs.length ≤ acts.length := by
  intro reqs
  induction reqs with
  | nil =>
    intro acts i idxs h
    cases acts <;> simp [TransitionDetector.matchSeqGo] at h <;> subst h <;> simp
  | cons req rs ih =>
    intro acts i idxs h
    cases acts with
    | nil => simp [TransitionDetector.matchSeqGo] at h
    | cons act as =>
      simp only [TransitionDetector.matchSeqGo] at h
      by_cases hm : TransitionDetector.emotionMatches act req = true
      · rw [if_pos hm] at h
        obtain ⟨rest, hrest, hcons⟩ := Option.map_eq_some'.mp h
        obtain ⟨hr, hlen⟩ := ih as (i + 1) rest hrest
        subst hcons hr
        constructor
        · simp only [List.length_cons, List.range_succ_eq_map, List.map_cons,
            List.map_map]
          refine List.cons_eq_cons.mpr ⟨by omega, ?_⟩
          apply List.map_congr_left
          intro j _
          simp only [Function.comp_apply, Nat.succ_eq_add_one]
          omega
        · simpa using hlen
      · rw [if_neg hm] at h
        exact absurd h (by simp)

/-- Structure of a successful `matchSequence`: the pattern fits, and
the returned indices are exactly the tail positions
`len − L, …, len − 1`. -/
theorem matchSequence_eq (ems pat : List String) (idxs : List Nat)
    (h : TransitionDetector.matchSequence ems pat = some idxs) :
    pat.length ≤ ems.length ∧
    idxs = (List.range pat.length).map (fun j => (ems.length - pat.length) + j) := by
  unfold TransitionDetector.matchSequence at h
  by_cases hlt : ems.length < pat.length
  · rw [if_pos hlt] at h
    exact absurd h (by simp)
  · rw [if_neg hlt] at h
    refine ⟨Nat.le_of_not_lt hlt, ?_⟩
    obtain ⟨hidx, -⟩ := matchSeqGo_eq (ems.length - pat.length) pat
      (ems.drop (ems.length - pat.length)) 0 idxs h
    rw [hidx]
    apply List.map_congr_left
    intro j _
    omega

/-- Erasing the index of the last element takes the prefix before it. -/
theorem eraseIdx_last {α : Type} (l : List α) (h : l ≠ []) :
    l.eraseIdx (l.length - 1) = l.take (l.length - 1) := by
  rw [List.eraseIdx_eq_take_drop_succ]
  have : l.length - 1 + 1 = l.length := by
    cases l with
    | nil => exact absurd rfl h
    | cons a as => simp
  rw [this, List.drop_length, List.append_nil]

/-- Splicing out the last `L` positions of a list, highest index first,
leaves exactly the prefix before them. -/
theorem splice_tail_eq_take {α : Type} :
    ∀ (L : Nat) (l : List α), L ≤ l.length →
    (((List.range L).map (fun j => (l.length - L) + j)).reverse.foldl
      (fun acc i => acc.eraseIdx i) l) = l.take (l.length - L) := by
  intro L
  induction L with
  | zero => intro l _; simp
  | succ L ih =>
    intro l hL
    have hne : l ≠ [] := by
      cases l
      · simp at hL
      · simp
    have hfL : l.length - (L + 1) + L = l.length - 1 := by omega
    rw [List.range_succ, List.map_append, List.reverse_append]
    simp only [List.map_cons, List.map_nil, List.reverse_cons, List.reverse_nil,
      List.nil_append, List.singleton_append, List.foldl_cons]
    rw [hfL, eraseIdx_last l hne]
    have hlen' : (l.take (l.length - 1)).length = l.length - 1 := by
      rw [List.length_take]
      omega
    have harg : ((List.range L).map (fun j => l.length - (L + 1) + j)) =
        ((List.range L).map (fun j => (l.take (l.length - 1)).length - L + j)) := by
      apply List.map_congr_left
      intro j _
      rw [hlen']
      omega
    rw [harg, ih (l.take (l.length - 1)) (by omega), List.take_take, hlen']
    congr 1
    omega

/-- Reading every position of a list with `getD` reproduces the list. -/
theorem map_range_getD_self {α : Type} (d : α) :
    ∀ l : List α, (List.range l.length).map (fun j => l.getD j d) = l := by
  intro l
  induction l with
  | nil => simp
  | cons a as ih =>
    simp only [List.length_cons, List.range_succ_eq_map, List.map_cons,
      List.map_map, List.getD_cons_zero]
    refine List.cons_eq_cons.mpr ⟨rfl, ?_⟩
    have : ((fun j => (a :: as).getD j d) ∘ Nat.succ) = fun j => as.getD j d := by
      funext j
      simp [List.getD_cons_succ]
    rw [this, ih]

/-- Reading the positions `k, k+1, …` of a list with `getD` reproduces
its `drop k` suffix. -/
theorem map_range_getD_drop {α : Type} (d : α) :
    ∀ (k : Nat) (l : List α) (L : Nat), k + L = l.length →
    (List.range L).map (fun j => l.getD (k + j) d) = l.drop k := by
  intro k
  induction k with
  | zero =>
    intro l L hL
    simp only [Nat.zero_add] at hL
    subst hL
    simpa using map_range_getD_self d l
  | succ k ih =>
    intro l L hL
    cases l with
    | nil => simp at hL
    | cons a as =>
      have : ∀ j, (a :: as).getD (k + 1 + j) d = as.getD (k + j) d := by
        intro j
        have : k + 1 + j = (k + j) + 1 := by omega
        rw [this, List.getD_cons_succ]
      simp only [this]
      rw [List.drop_succ_cons]
      have hL' : k + L = as.length := by
        simp only [List.length_cons] at hL
        omega
      exact ih as L hL'

/-- When some catalog sequence matches the tail of the history, the
scan of `detectViralMoment` returns the first such sequence (catalog
order), the thought ids of the consumed tail, and the history with the
consumed tail physically removed. -/
theorem detectViralLoop_of_find (hist : List HistEntry) (ts : String) :
    ∀ (cat : List ViralSequence) (sq : ViralSequence),
    cat.find? (fun s => (TransitionDetector.matchSequence (hist.map (·.emotion))
      s.pattern).isSome) = some sq →
    TransitionDetector.detectViralLoop hist ts cat =
      (some ⟨sq, (hist.drop (hist.length - sq.pattern.length)).map (·.thoughtId), ts⟩,
       hist.take (hist.length - sq.pattern.length)) := by
  intro cat
  induction cat with
  | nil => intro sq h; simp at h
  | cons c rest ih =>
    intro sq hfind
    cases hidxs : TransitionDetector.matchSequence (hist.map (·.emotion))
        c.pattern with
    | some idxs =>
      simp only [List.find?, hidxs, Option.isSome_some] at hfind
      obtain rfl : c = sq := by simpa using hfind
      obtain ⟨hle, hstruct⟩ := matchSequence_eq _ _ _ hidxs
      rw [List.length_map] at hle hstruct
      simp only [TransitionDetector.detectViralLoop, hidxs]
      subst hstruct
      rw [Prod.mk.injEq]
      constructor
      · refine congrArg some ?_
        refine congrArg (fun tids => DetectedViralMoment.mk c tids ts) ?_
        calc ((List.range c.pattern.length).map
              (fun j => hist.length - c.pattern.length + j)).map
              (fun i => (hist.getD i default).thoughtId)
            = ((List.range c.pattern.length).map
              (fun j => hist.getD (hist.length - c.pattern.length + j)
                default)).map (fun en => en.thoughtId) := by
              rw [List.map_map, List.map_map]
              rfl
          _ = (hist.drop (hist.length - c.pattern.length)).map
              (fun en => en.thoughtId) := by
              rw [map_range_getD_drop default (hist.length - c.pattern.length)
                hist c.pattern.length (by omega)]
      · exact splice_tail_eq_take c.pattern.length hist hle
    | none =>
      simp only [List.find?, hidxs, Option.isSome_none] at hfind
      simp only [TransitionDetector.detectViralLoop, hidxs]
      exact ih sq hfind

/-- Effect of one `bumpCount` on a record lookup. -/
theorem lookup_bumpCount (lbl e : String) : ∀ acc : List (String × Nat),
    List.lookup lbl (TransitionDetector.bumpCount acc e) =
      if e = lbl then some ((List.lookup lbl acc).getD 0 + 1)
      else List.lookup lbl acc := by
  intro acc
  induction acc with
  | nil =>
    by_cases h : e = lbl
    · subst h
      simp [TransitionDetector.bumpCount, List.lookup]
    · have hbe : (lbl == e) = false := beq_eq_false_iff_ne.mpr fun hh => h hh.symm
      simp [TransitionDetector.bumpCount, List.lookup, h, hbe]
  | cons kv rest ih =>
    obtain ⟨k, v⟩ := kv
    simp only [TransitionDetector.bumpCount]
    by_cases hk : k = e
    · subst hk
      rw [if_pos rfl]
      by_cases h2 : k = lbl
      · subst h2
        simp [List.lookup]
      · have hbe : (lbl == k) = false := beq_eq_false_iff_ne.mpr fun hh => h2 hh.symm
        simp [List.lookup, h2, hbe]
    · rw [if_neg hk]
      by_cases h2 : k = lbl
      · subst h2
        have he : ¬ (e = k) := fun hh => hk hh.symm
        simp [List.lookup, he]
      · have hbe : (lbl == k) = false := beq_eq_false_iff_ne.mpr fun hh => h2 hh.symm
        simp [List.lookup, hbe, ih]

/-- The fold that builds `getStats`'s counts record computes, for each
label, the number of matching history entries. -/
theorem lookup_foldl_bump (lbl : String) : ∀ (l : List HistEntry)
    (acc : List (String × Nat)),
    (List.lookup lbl
      (l.foldl (fun a en => TransitionDetector.bumpCount a en.emotion) acc)).getD 0
      = (List.lookup lbl acc).getD 0 + l.countP (fun en => en.emotion == lbl) := by
  intro l
  induction l with
  | nil => intro acc; simp
  | cons en rest ih =>
    intro acc
    simp only [List.foldl_cons, List.countP_cons]
    rw [ih (TransitionDetector.bumpCount acc en.emotion), lookup_bumpCount]
    by_cases h : en.emotion = lbl
    · simp only [if_pos h, h, beq_self_eq_true, if_true, Option.getD_some]
      omega
    · simp only [if_neg h]
      have : (en.emotion == lbl) = false := by
        simpa using h
      simp [this]

/-- Lemma: `getStats` counts exactly the entries present in the history. -/
theorem statCount_countP (h : List HistEntry) (lbl : String) :
    TransitionDetector.statCount ⟨h⟩ lbl =
      h.countP (fun en => en.emotion == lbl) := by
  unfold TransitionDetector.statCount TransitionDetector.getStats
  dsimp only
  rw [lookup_foldl_bump]
  simp [List.lookup]

/-- C1: when, after pushing the new emotion (and evicting on overflow),
the tail of the history matches some catalogued sequence — positions
satisfied by exact label equality or category membership, and
`List.find?` selecting the first matching sequence in catalog order —
`addEmotion` returns exactly that one match, carrying the thought ids
of the consumed tail, and the new history is exactly the prefix before
the consumed tail: the consumed entries are physically removed, so
`getStats` counts afterwards range only over the remaining entries and
a removed entry can never take part in a later match
(transitions.ts lines 113–151). -/
theorem C1_sequence_match_consumes (st : TransitionState) (e : String) (tid : Int)
    (ts : String) (sq : ViralSequence)
    (hfind : VIRAL_SEQUENCES.find? (fun s =>
      (TransitionDetector.matchSequence
        ((TransitionDetector.pushEvict st e tid ts).map (·.emotion))
        s.pattern).isSome) = some sq) :
    TransitionDetector.addEmotion st e tid ts =
      (some ⟨sq,
        ((TransitionDetector.pushEvict st e tid ts).drop
          ((TransitionDetector.pushEvict st e tid ts).length -
            sq.pattern.length)).map (·.thoughtId), ts⟩,
       ⟨(TransitionDetector.pushEvict st e tid ts).take
         ((TransitionDetector.pushEvict st e tid ts).length -
           sq.pattern.length)⟩) ∧
    (∀ lbl, TransitionDetector.statCount
        (TransitionDetector.addEmotion st e tid ts).2 lbl =
      ((TransitionDetector.pushEvict st e tid ts).take
        ((TransitionDetector.pushEvict st e tid ts).length -
          sq.pattern.length)).countP (fun en => en.emotion == lbl)) := by
  have hloop := detectViralLoop_of_find (TransitionDetector.pushEvict st e tid ts)
    ts VIRAL_SEQUENCES sq hfind
  have hadd : TransitionDetector.addEmotion st e tid ts =
      (some ⟨sq,
        ((TransitionDetector.pushEvict st e tid ts).drop
          ((TransitionDetector.pushEvict st e tid ts).length -
            sq.pattern.length)).map (·.thoughtId), ts⟩,
       ⟨(TransitionDetector.pushEvict st e tid ts).take
         ((TransitionDetector.pushEvict st e tid ts).length -
           sq.pattern.length)⟩) := by
    unfold TransitionDetector.addEmotion TransitionDetector.detectViralMoment
    rw [hloop]
  refine ⟨hadd, ?_⟩
  intro lbl
  rw [hadd]
  exact statCount_countP _ lbl

/-- Witness for C1 at the spec's own test: history
`[frustrated, frustrated]`, then `eureka`, matching
"The Struggle Bus Arrives" and emptying the history. -/
theorem C1_sequence_match_consumes_witness :
    TransitionDetector.addEmotion
        ⟨[⟨"frustrated", 1, "t"⟩, ⟨"frustrated", 2, "t"⟩]⟩ "eureka" 3 "t" =
      (some ⟨⟨"The Struggle Bus Arrives", ["frustrated", "frustrated", "eureka"],
        10, "Struggled hard, then breakthrough!"⟩, [1, 2, 3], "t"⟩, ⟨[]⟩) ∧
    TransitionDetector.statCount
      (TransitionDetector.addEmotion
        ⟨[⟨"frustrated", 1, "t"⟩, ⟨"frustrated", 2, "t"⟩]⟩ "eureka" 3 "t").2
      "frustrated" = 0 := by
  have h := C1_sequence_match_consumes
    ⟨[⟨"frustrated", 1, "t"⟩, ⟨"frustrated", 2, "t"⟩]⟩ "eureka" 3 "t"
    ⟨"The Struggle Bus Arrives", ["frustrated", "frustrated", "eureka"], 10,
      "Struggled hard, then breakthrough!"⟩ (by decide)
  refine ⟨?_, ?_⟩
  · rw [h.1]
    decide
  · rw [h.2 "frustrated"]
    decide

/-- One loop iteration of `PatternMatcher.detect` is the winner-tracking
iteration with the built `EmotionMatch` laid over it. -/
theorem detectStep_winnerStep (test : String → String → Bool) (blob : String)
    (s : Option Bool) (nd : String × PatternDef)
    (w : Option (String × PatternDef) × ℚ) :
    PatternMatcher.detectStep test blob s
        (w.1.map (PatternMatcher.mkMatch test blob s), w.2) nd =
      ((PatternMatcher.winnerStep test blob w nd).1.map
        (PatternMatcher.mkMatch test blob s),
       (PatternMatcher.winnerStep test blob w nd).2) := by
  simp only [PatternMatcher.detectStep, PatternMatcher.winnerStep,
    PatternMatcher.mkMatch]
  split_ifs <;> rfl

/-- The rule loop of `detect` is the winner-tracking fold with the
built `EmotionMatch` laid over it. -/
theorem foldl_detect_winner (test : String → String → Bool) (blob : String)
    (s : Option Bool) : ∀ (cat : List (String × PatternDef))
    (w : Option (String × PatternDef) × ℚ),
    cat.foldl (PatternMatcher.detectStep test blob s)
        (w.1.map (PatternMatcher.mkMatch test blob s), w.2) =
      ((cat.foldl (PatternMatcher.winnerStep test blob) w).1.map
        (PatternMatcher.mkMatch test blob s),
       (cat.foldl (PatternMatcher.winnerStep test blob) w).2) := by
  intro cat
  induction cat with
  | nil => intro w; rfl
  | cons nd rest ih =>
    intro w
    simp only [List.foldl_cons]
    rw [detectStep_winnerStep]
    exact ih (PatternMatcher.winnerStep test blob w nd)

/-- C2: whenever the blob matches at least one rule (the loop of
pattern.ts lines 286–337 elects a winning catalog entry), the returned
intensity is the winner's base intensity, plus 1 (capped at 10) when
the success flag is exactly `false`, plus one per two exclamation marks
in the blob (integer division, capped at 10), plus 1 (capped at 10)
when the uppercase ratio of the blob — the lower-cased join of tool
output, reasoning excerpt and tool name — exceeds 0.3; the steps apply
additively in that order, each independently capped at 10
(`PatternMatcher.adjustIntensity`). The returned label is the winning
rule's name. -/
theorem C2_intensity_formula (test : String → String → Bool)
    (tr th tn : Option String) (s : Option Bool) (n : String) (d : PatternDef)
    (h : PatternMatcher.winningRule test tr th tn = some (n, d)) :
    (PatternMatcher.detect test tr th tn s).emotion = n ∧
    (PatternMatcher.detect test tr th tn s).intensity =
      PatternMatcher.adjustIntensity d.baseIntensity s
        (PatternMatcher.mkBlob tr th tn) := by
  unfold PatternMatcher.winningRule at h
  simp only [PatternMatcher.detect]
  by_cases hb : (PatternMatcher.mkBlob tr th tn).trim = ""
  · rw [if_pos hb] at h
    exact absurd h (by simp)
  · rw [if_neg hb] at h
    rw [if_neg hb]
    have hfold := foldl_detect_winner test (PatternMatcher.mkBlob tr th tn) s
      EMOTION_PATTERNS ((none : Option (String × PatternDef)), (0 : ℚ))
    simp only [Option.map_none'] at hfold
    rw [hfold, h]
    constructor <;> simp [PatternMatcher.mkMatch]

/-- Witness for C2: an oracle hitting two `nailed_it` patterns elects
`nailed_it` as the winning rule. -/
theorem C2_intensity_formula_witness :
    (PatternMatcher.detect (fun p _ => p == "tests?\\s+pass" || p == "0\\s+errors?")
        (some "tests pass with 0 errors") none none none).emotion = "nailed_it" ∧
    (PatternMatcher.detect (fun p _ => p == "tests?\\s+pass" || p == "0\\s+errors?")
        (some "tests pass with 0 errors") none none none).intensity =
      PatternMatcher.adjustIntensity 7 none
        (PatternMatcher.mkBlob (some "tests pass with 0 errors") none none) :=
  C2_intensity_formula (fun p _ => p == "tests?\\s+pass" || p == "0\\s+errors?")
    (some "tests pass with 0 errors") none none none "nailed_it"
    ⟨["tests?\\s+pass", "all\\s+tests?\\s+pass", "build\\s+succeed", "successfully",
      "0\\s+errors?", "no\\s+errors?", "completed?\\s+successfully",
      "works?\\s+perfectly"],
     "nailed it success", 7, false, ["success", "victory"]⟩
    (by with_unfolding_all decide)

/-- The count-based rule confidence always lies in `[0, 1]`. -/
theorem ruleConfidence_bounds (k : Nat) :
    0 ≤ PatternMatcher.ruleConfidence k ∧ PatternMatcher.ruleConfidence k ≤ 1 := by
  unfold PatternMatcher.ruleConfidence
  constructor
  · apply le_min
    · positivity
    · norm_num
  · exact le_trans (min_le_right _ _) (by norm_num)

/-- The intensity adjustment keeps a base in `[1, 10]` inside `[1, 10]`. -/
theorem adjustIntensity_bounds (base : Nat) (s : Option Bool) (blob : String)
    (h1 : 1 ≤ base) (h2 : base ≤ 10) :
    1 ≤ PatternMatcher.adjustIntensity base s blob ∧
    PatternMatcher.adjustIntensity base s blob ≤ 10 := by
  unfold PatternMatcher.adjustIntensity
  dsimp only
  split_ifs <;> omega

/-- Every cataloged rule's base intensity lies in `[1, 10]`. -/
theorem emotionPatterns_base_bounds :
    ∀ nd ∈ EMOTION_PATTERNS, 1 ≤ nd.2.baseIntensity ∧ nd.2.baseIntensity ≤ 10 := by
  decide

/-- The rule loop only ever stores matches with intensity in `[1, 10]`
and confidence in `[0, 1]`. -/
theorem detectFold_bounds (test : String → String → Bool) (blob : String)
    (s : Option Bool) :
    ∀ (cat : List (String × PatternDef)) (st : Option EmotionMatch × ℚ),
    (∀ nd ∈ cat, 1 ≤ nd.2.baseIntensity ∧ nd.2.baseIntensity ≤ 10) →
    (∀ m, st.1 = some m → (1 ≤ m.intensity ∧ m.intensity ≤ 10) ∧
      (0 ≤ m.confidence ∧ m.confidence ≤ 1)) →
    ∀ m, (cat.foldl (PatternMatcher.detectStep test blob s) st).1 = some m →
      (1 ≤ m.intensity ∧ m.intensity ≤ 10) ∧
      (0 ≤ m.confidence ∧ m.confidence ≤ 1) := by
  intro cat
  induction cat with
  | nil => intro st _ hst m hm; exact hst m hm
  | cons nd rest ih =>
    intro st hcat hst m hm
    simp only [List.foldl_cons] at hm
    refine ih (PatternMatcher.detectStep test blob s st nd)
      (fun x hx => hcat x (List.mem_cons_of_mem _ hx)) ?_ m hm
    intro m' hm'
    simp only [PatternMatcher.detectStep] at hm'
    split_ifs at hm' with hk hc
    · obtain rfl : _ = m' := by simpa using hm'
      refine ⟨?_, ruleConfidence_bounds _⟩
      exact adjustIntensity_bounds nd.2.baseIntensity s blob
        (hcat nd (List.mem_cons_self _ _)).1 (hcat nd (List.mem_cons_self _ _)).2
    · exact hst m' hm'
    · exact hst m' hm'

/-- The rule matcher's result always has intensity in `[1, 10]` and
confidence in `[0, 1]`. -/
theorem patternDetect_bounds (test : String → String → Bool)
    (tr th tn : Option String) (s : Option Bool) :
    (1 ≤ (PatternMatcher.detect test tr th tn s).intensity ∧
     (PatternMatcher.detect test tr th tn s).intensity ≤ 10) ∧
    (0 ≤ (PatternMatcher.detect test tr th tn s).confidence ∧
     (PatternMatcher.detect test tr th tn s).confidence ≤ 1) := by
  simp only [PatternMatcher.detect]
  by_cases hb : (PatternMatcher.mkBlob tr th tn).trim = ""
  · rw [if_pos hb]
    refine ⟨⟨?_, ?_⟩, ?_, ?_⟩ <;> norm_num [DEFAULT_EMOTION]
  · rw [if_neg hb]
    cases hfold : (EMOTION_PATTERNS.foldl
        (PatternMatcher.detectStep test (PatternMatcher.mkBlob tr th tn) s)
        (none, 0)).1 with
    | some m =>
      have := detectFold_bounds test (PatternMatcher.mkBlob tr th tn) s
        EMOTION_PATTERNS (none, 0) emotionPatterns_base_bounds
        (fun m' hm' => by simp at hm') m hfold
      simpa using this
    | none =>
      cases s with
      | none => refine ⟨⟨?_, ?_⟩, ?_, ?_⟩ <;> norm_num [DEFAULT_EMOTION]
      | some b =>
        cases b <;> refine ⟨⟨?_, ?_⟩, ?_, ?_⟩ <;> norm_num

/-- Whatever intensity the creative service reports, the engine clamps
it to `[1, 10]` (claude.ts line 144). -/
theorem claudeDetect_intensity_bounds (apiKey : Option String)
    (net : Option ParsedJson) (c : ClaudeEmotionResult)
    (h : ClaudeDetector.detect apiKey net = some c) :
    1 ≤ c.intensity ∧ c.intensity ≤ 10 := by
  unfold ClaudeDetector.detect at h
  cases apiKey with
  | none => exact absurd h (by simp)
  | some k =>
    cases net with
    | none => exact absurd h (by simp)
    | some p =>
      obtain rfl : _ = c := by simpa using h
      constructor
      · exact le_min (by norm_num) (le_max_left 1 _)
      · exact min_le_left _ _

/-- Every mode's classification has intensity in `[1, 10]` and
confidence in `[0, 1]`. -/
theorem runMode_bounds (mode : DetectionMode) (test : String → String → Bool)
    (apiKey : Option String) (net : Option ParsedJson)
    (tn ti tr : Option String) (s : Option Bool) (th : Option String) :
    (1 ≤ (EmotionDetector.runMode mode test apiKey net tn ti tr s th).intensity ∧
     (EmotionDetector.runMode mode test apiKey net tn ti tr s th).intensity ≤ 10) ∧
    (0 ≤ (EmotionDetector.runMode mode test apiKey net tn ti tr s th).confidence ∧
     (EmotionDetector.runMode mode test apiKey net tn ti tr s th).confidence ≤ 1) := by
  have hpat : ∀ (tr' th' tn' : Option String) (s' : Option Bool),
      (1 ≤ (EmotionDetector.detectPattern test tr' th' tn' s').intensity ∧
       (EmotionDetector.detectPattern test tr' th' tn' s').intensity ≤ 10) ∧
      (0 ≤ (EmotionDetector.detectPattern test tr' th' tn' s').confidence ∧
       (EmotionDetector.detectPattern test tr' th' tn' s').confidence ≤ 1) := by
    intro tr' th' tn' s'
    have h := patternDetect_bounds test tr' th' tn' s'
    simp only [EmotionDetector.detectPattern]
    refine ⟨⟨?_, ?_⟩, h.2.1, h.2.2⟩
    · exact_mod_cast h.1.1
    · exact_mod_cast h.1.2
  cases mode with
  | pattern => exact hpat tr th tn s
  | claude =>
    simp only [EmotionDetector.runMode, EmotionDetector.detectClaude]
    cases hcd : ClaudeDetector.detect apiKey net with
    | some c =>
      have := claudeDetect_intensity_bounds apiKey net c hcd
      exact ⟨this, by norm_num⟩
    | none => exact hpat tr th tn s
  | hybrid =>
    simp only [EmotionDetector.runMode, EmotionDetector.detectHybrid]
    split_ifs with h1 h2
    · exact hpat tr th tn s
    · cases hcd : ClaudeDetector.detect apiKey net with
      | some c =>
        have := claudeDetect_intensity_bounds apiKey net c hcd
        exact ⟨this, by norm_num⟩
      | none => exact hpat tr th tn s
    · exact hpat tr th tn s

/-- C6: for every event and in every detection mode, including all
fallback paths, the returned result has intensity in `[1, 10]` and
confidence in `[0, 1]`; a creative-service intensity is clamped by the
engine whatever the parsed response contained. -/
theorem C6_intensity_confidence_invariant (mode : DetectionMode)
    (test : String → String → Bool) (apiKey : Option String)
    (net : Option ParsedJson) (tn ti tr : Option String) (s : Option Bool)
    (th : Option String) (tid : Option Int) (st : TransitionState) (ts : String) :
    (1 ≤ ((EmotionDetector.detect mode test apiKey net tn ti tr s th tid st
        ts).1).intensity ∧
      ((EmotionDetector.detect mode test apiKey net tn ti tr s th tid st
        ts).1).intensity ≤ 10) ∧
    (0 ≤ ((EmotionDetector.detect mode test apiKey net tn ti tr s th tid st
        ts).1).confidence ∧
      ((EmotionDetector.detect mode test apiKey net tn ti tr s th tid st
        ts).1).confidence ≤ 1) := by
  have h := runMode_bounds mode test apiKey net tn ti tr s th
  simp only [EmotionDetector.detect]
  split_ifs <;> simpa using h
